import Mathlib

/-!
Verification development for the Don Churro sales bot (Wix Velo storefront
automation).  The definitions below are a shallow embedding of the decision
engine: the abandoned-cart recovery jobs and HTTP endpoints
(`src/backend/jobs.config.js`, `src/backend/http-functions.js`), the chat
widget intent dispatcher (`src/public/chatWidget.js`), and the customer
segmentation job.  The backend module `src/backend/salesBot.jsw` is not part
of the available sources; the operations it provides
(`sendCartRecoveryEmail`, `validateCode`, `getCustomerValueScore`,
`trackAbandonedCart`) are modelled from the specification and are marked as
such in their doc comments.  Timestamps are integers counting milliseconds,
mirroring JavaScript `Date.now()`.
-/

namespace DonChurro

/-- One hour in milliseconds (`60 * 60 * 1000`). -/
def hourMs : Int := 3600000

/-- An `AbandonedCarts` collection record, per the database schema in the
setup guide: customer id, cart total, abandonment timestamp, recovery and
email flags, reminder counter and the last reminder timestamp.  Cart items
are kept as an opaque item count, which is all the claims need. -/
structure AbandonedCart where
  id : Nat
  customerId : String
  cartTotal : Int
  itemCount : Nat
  abandonedAt : Int
  recovered : Bool
  emailSent : Bool
  reminderCount : Nat
  lastReminderAt : Int
deriving DecidableEq

/-- Modelled from the spec: `sendCartRecoveryEmail` lives in the missing
backend module `salesBot.jsw`.  Per spec section 4.4 a send claims the cart and
advances its reminder state: `emailSent := true`, `reminderCount` one step up,
`lastReminderAt := now`. -/
def sendCartRecoveryEmail (now : Int) (c : AbandonedCart) : AbandonedCart :=
  { c with emailSent := true
           reminderCount := c.reminderCount + 1
           lastReminderAt := now }

/-- Eligibility filter of the hourly `processAbandonedCarts` job
(jobs.config.js): `abandonedAt` between twenty-four hours ago and one hour ago
(both ends included, `.ge`/`.le`), `emailSent = false`, `recovered = false`. -/
def firstReminderEligible (now : Int) (c : AbandonedCart) : Bool :=
  decide (now - 24 * hourMs ≤ c.abandonedAt) &&
  decide (c.abandonedAt ≤ now - hourMs) &&
  (c.emailSent == false) &&
  (c.recovered == false)

/-- Eligibility filter of the `sendSecondReminder` job (jobs.config.js):
`lastReminderAt` between forty-eight and twenty-four hours ago (both ends
included), `recovered = false`, `reminderCount = 1`. -/
def secondReminderEligible (now : Int) (c : AbandonedCart) : Bool :=
  decide (now - 48 * hourMs ≤ c.lastReminderAt) &&
  decide (c.lastReminderAt ≤ now - 24 * hourMs) &&
  (c.recovered == false) &&
  (c.reminderCount == 1)

/-- Eligibility filter of the `post_bulkRecovery` HTTP endpoint
(http-functions.js): a single cutoff `abandonedAt ≤ now - hoursOld * 1h`
(`.le` only, no lower bound), `emailSent = false`, `recovered = false`. -/
def bulkRecoveryEligible (now : Int) (hoursOld : Int) (c : AbandonedCart) : Bool :=
  decide (c.abandonedAt ≤ now - hoursOld * hourMs) &&
  (c.emailSent == false) &&
  (c.recovered == false)

/-- The query of the first-reminder job: the eligible carts, paged by
`.limit(100)`. -/
def selectFirstReminder (now : Int) (carts : List AbandonedCart) : List AbandonedCart :=
  (carts.filter (firstReminderEligible now)).take 100

/-- Outcome of one `sendCartRecoveryEmail` call as seen by the calling job:
the returned `result.success` was true, it was false, or the call threw. -/
inductive SendOutcome where
  | success
  | failure
  | thrown
deriving DecidableEq

/-- The summary object returned by `processAbandonedCarts`:
`{ processed, successful, failed }`. -/
structure JobSummary where
  processed : Nat
  successful : Nat
  failed : Nat
deriving DecidableEq

/-- The summary object returned by `sendSecondReminder`: `{ sent }` only. -/
structure SecondReminderSummary where
  sent : Nat
deriving DecidableEq

/-- Effect of one first-reminder pass on the store plus the summary it
returns.  Every selected cart is claimed and sent a recovery email (the send
itself updates the record inside `sendCartRecoveryEmail`); per-item outcomes
only drive the `successful`/`failed` counters, and an outcome that throws is
caught by the per-cart `try`/`catch` and counted as failed. -/
def runFirstReminderPass (now : Int) (send : AbandonedCart → SendOutcome)
    (carts : List AbandonedCart) : List AbandonedCart × JobSummary :=
  let sel := selectFirstReminder now carts
  (carts.map (fun c => if c ∈ sel then sendCartRecoveryEmail now c else c),
   { processed := sel.length
     successful := sel.countP (fun c => send c == SendOutcome.success)
     failed := sel.countP (fun c => !(send c == SendOutcome.success)) })

/-- The `processAbandonedCarts` job boundary: the initial store query can
fail, and the outer `catch` of the job rethrows (`throw error`), so a query
failure propagates past the job boundary as `Except.error`. -/
def processAbandonedCartsJob (now : Int)
    (query : Except String (List AbandonedCart))
    (send : AbandonedCart → SendOutcome) :
    Except String (List AbandonedCart × JobSummary) :=
  match query with
  | Except.error e => Except.error e
  | Except.ok carts => Except.ok (runFirstReminderPass now send carts)

/-- The query of the second-reminder job: eligible carts, paged by
`.limit(50)`. -/
def selectSecondReminder (now : Int) (carts : List AbandonedCart) : List AbandonedCart :=
  (carts.filter (secondReminderEligible now)).take 50

/-- Effect of one second-reminder pass.  The loop increments its single
counter whenever the send call did not throw (the job never inspects
`result.success`), and returns only `{ sent }`. -/
def runSecondReminderPass (now : Int) (send : AbandonedCart → SendOutcome)
    (carts : List AbandonedCart) : List AbandonedCart × SecondReminderSummary :=
  let sel := selectSecondReminder now carts
  (carts.map (fun c => if c ∈ sel then sendCartRecoveryEmail now c else c),
   { sent := sel.countP (fun c => !(send c == SendOutcome.thrown)) })

/-- The `sendSecondReminder` job boundary: like the first-reminder job, a
failure of the top-level query is rethrown by the outer `catch`. -/
def sendSecondReminderJob (now : Int)
    (query : Except String (List AbandonedCart))
    (send : AbandonedCart → SendOutcome) :
    Except String (List AbandonedCart × SecondReminderSummary) :=
  match query with
  | Except.error e => Except.error e
  | Except.ok carts => Except.ok (runSecondReminderPass now send carts)

/-- The events that can touch a single abandoned-cart record: the three
reminder passes (each applies `sendCartRecoveryEmail` exactly when its
eligibility filter selects the cart) and the external checkout signal that
marks the cart recovered. -/
inductive CartEvent where
  | firstPass (now : Int)
  | secondPass (now : Int)
  | bulkPass (now : Int) (hoursOld : Int)
  | checkout

/-- Per-cart effect of one event. -/
def cartStep : CartEvent → AbandonedCart → AbandonedCart
  | CartEvent.firstPass now, c =>
      if firstReminderEligible now c then sendCartRecoveryEmail now c else c
  | CartEvent.secondPass now, c =>
      if secondReminderEligible now c then sendCartRecoveryEmail now c else c
  | CartEvent.bulkPass now h, c =>
      if bulkRecoveryEligible now h c then sendCartRecoveryEmail now c else c
  | CartEvent.checkout, c => { c with recovered := true }

/-- Whether an event sends a reminder email to the cart: exactly when a
reminder pass selects it. -/
def sendsReminder (e : CartEvent) (c : AbandonedCart) : Bool :=
  match e with
  | CartEvent.firstPass now => firstReminderEligible now c
  | CartEvent.secondPass now => secondReminderEligible now c
  | CartEvent.bulkPass now h => bulkRecoveryEligible now h c
  | CartEvent.checkout => false

/-- Modelled from the spec: `trackAbandonedCart` (missing backend module
`salesBot.jsw`) creates the `AbandonedCart` record with `emailSent = false`,
`reminderCount = 0`, `recovered = false` (spec section 4.4, transition
`Active -> Abandoned`). -/
def initialCart (id : Nat) (cid : String) (total : Int) (items : Nat)
    (t : Int) : AbandonedCart :=
  { id := id
    customerId := cid
    cartTotal := total
    itemCount := items
    abandonedAt := t
    recovered := false
    emailSent := false
    reminderCount := 0
    lastReminderAt := t }

/-- Cart records reachable from creation under the events of the system. -/
inductive ReachableCart : AbandonedCart → Prop where
  | init (id : Nat) (cid : String) (total : Int) (items : Nat) (t : Int) :
      ReachableCart (initialCart id cid total items t)
  | step (e : CartEvent) (c : AbandonedCart) :
      ReachableCart c → ReachableCart (cartStep e c)

theorem sendCartRecoveryEmail_emailSent (now : Int) (c : AbandonedCart) :
    (sendCartRecoveryEmail now c).emailSent = true := rfl

/-- Invariant of reachable carts: the reminder counter stays at most two and
a positive counter implies the email flag is set. -/
theorem reachable_inv (c : AbandonedCart) (h : ReachableCart c) :
    c.reminderCount ≤ 2 ∧ (1 ≤ c.reminderCount → c.emailSent = true) := by
  induction h with
  | init id cid total items t => simp [initialCart]
  | step e c hc ih =>
    rcases e with now | now | ⟨now, hrs⟩ | _
    · by_cases helig : firstReminderEligible now c = true
      · have hmail : c.emailSent = false := by
          simp [firstReminderEligible, Bool.and_eq_true] at helig
          exact helig.1.2
        have hcount : c.reminderCount = 0 := by
          by_contra hne
          have := ih.2 (by omega)
          rw [this] at hmail
          simp at hmail
        simp [cartStep, helig, sendCartRecoveryEmail, hcount]
      · simp only [cartStep, helig, if_false, Bool.false_eq_true, ite_false]
        exact ih
    · by_cases helig : secondReminderEligible now c = true
      · have hcount : c.reminderCount = 1 := by
          simp [secondReminderEligible, Bool.and_eq_true] at helig
          exact helig.2
        simp [cartStep, helig, sendCartRecoveryEmail, hcount]
      · simp only [cartStep, helig, Bool.false_eq_true, ite_false]
        exact ih
    · by_cases helig : bulkRecoveryEligible now hrs c = true
      · have hmail : c.emailSent = false := by
          simp [bulkRecoveryEligible, Bool.and_eq_true] at helig
          exact helig.1.2
        have hcount : c.reminderCount = 0 := by
          by_contra hne
          have := ih.2 (by omega)
          rw [this] at hmail
          simp at hmail
        simp [cartStep, helig, sendCartRecoveryEmail, hcount]
      · simp only [cartStep, helig, Bool.false_eq_true, ite_false]
        exact ih
    · simpa [cartStep] using ih

/-- A `DiscountCodes` collection record, per the database schema in the setup
guide. -/
structure DiscountCode where
  code : String
  discountValue : Int
  minOrderAmount : Int
  expiresAt : Int
  usageLimit : Nat
  usedCount : Nat
  isActive : Bool
deriving DecidableEq

/-- Result of validating a discount code: valid, or one distinct reason per
failing condition. -/
inductive ValidateResult where
  | valid
  | inactive
  | expired
  | limit_reached
  | below_minimum
deriving DecidableEq

/-- Modelled from the spec: `validateCode` lives in the missing backend module
`salesBot.jsw`.  Per spec section 4.3 a code is valid iff `isActive`,
`now < expiresAt`, `usedCount < usageLimit` and `orderAmount ≥ minOrderAmount`,
and the failing condition is reported as a distinct reason. -/
def validateCode (now : Int) (d : DiscountCode) (orderAmount : Int) : ValidateResult :=
  if d.isActive = false then ValidateResult.inactive
  else if d.expiresAt ≤ now then ValidateResult.expired
  else if d.usageLimit ≤ d.usedCount then ValidateResult.limit_reached
  else if orderAmount < d.minOrderAmount then ValidateResult.below_minimum
  else ValidateResult.valid

/-- Modelled from the spec: a successful validation consumes the code by a
single conditional increment of `usedCount` (spec sections 4.3 and 5); a
failed validation leaves the record unchanged. -/
def validateAndConsume (now : Int) (d : DiscountCode) (orderAmount : Int) :
    ValidateResult × DiscountCode :=
  match validateCode now d orderAmount with
  | ValidateResult.valid => (ValidateResult.valid, { d with usedCount := d.usedCount + 1 })
  | r => (r, d)

/-- The `SAVE10` code of the spec scenario: `usageLimit = 1`, `usedCount = 0`,
`minOrderAmount = 20`, active and unexpired at validation time. -/
def save10 : DiscountCode :=
  { code := "SAVE10"
    discountValue := 10
    minOrderAmount := 20
    expiresAt := 24 * hourMs
    usageLimit := 1
    usedCount := 0
    isActive := true }

/-- A `Customers` collection record as read by the segmentation job: id,
current segment, stored value score, and the last segment-update time. -/
structure Customer where
  id : String
  segment : String
  valueScore : Int
  lastSegmentUpdate : Int
deriving DecidableEq

/-- The `{ success, score, segment }` object returned by
`getCustomerValueScore`.  The scoring function itself lives in the missing
backend module and is passed in as a parameter: the spec (section 4.2) only
requires it to be a deterministic function of stored order and interaction
data, which an `updateCustomerSegments` pass does not change. -/
structure ScoreResult where
  success : Bool
  score : Int
  segment : String
deriving DecidableEq

/-- The write condition of the `updateCustomerSegments` loop
(jobs.config.js): a customer is written back only when scoring succeeded and
the computed segment differs from the stored one. -/
def segWrite (f : String → ScoreResult) (c : Customer) : Bool :=
  (f c.id).success && (c.segment != (f c.id).segment)

/-- Per-customer effect of the `updateCustomerSegments` loop: when the write
condition holds, segment, value score and `lastSegmentUpdate` are written;
otherwise the record is untouched. -/
def segApply (f : String → ScoreResult) (now : Int) (c : Customer) : Customer :=
  if segWrite f c then
    { c with segment := (f c.id).segment
             valueScore := (f c.id).score
             lastSegmentUpdate := now }
  else c

/-- The `updateCustomerSegments` job over the customer page: the new store
contents and the `updated` counter of its `{ processed, updated }` summary. -/
def updateCustomerSegments (f : String → ScoreResult) (now : Int)
    (cs : List Customer) : List Customer × Nat :=
  (cs.map (segApply f now), cs.countP (segWrite f))

/-- Per-customer step of the `updateCustomerSegments` loop as seen at the
job boundary: the loop body is wrapped in a per-item try/catch, so a
throwing `getCustomerValueScore` call is logged and the loop continues with
the record unchanged; a returned result is applied exactly as in the source
(write only on success with a changed segment). -/
def segItemApply (score : String → Except Unit ScoreResult) (now : Int)
    (c : Customer) : Customer :=
  match score c.id with
  | Except.error _ => c
  | Except.ok r =>
    if r.success && (c.segment != r.segment) then
      { c with segment := r.segment
               valueScore := r.score
               lastSegmentUpdate := now }
    else c

/-- Whether the `updateCustomerSegments` loop counts the customer in its
`updated` tally: never for a throwing score call (caught and skipped). -/
def segItemWrites (score : String → Except Unit ScoreResult) (c : Customer) : Bool :=
  match score c.id with
  | Except.error _ => false
  | Except.ok r => r.success && (c.segment != r.segment)

/-- The `updateCustomerSegments` job boundary: a failing customer query is
rethrown by the outer catch; otherwise the loop isolates per-item errors and
the job returns the new store contents together with the `updated` counter
of its `{ processed, updated }` summary. -/
def updateCustomerSegmentsJob (query : Except String (List Customer))
    (score : String → Except Unit ScoreResult) (now : Int) :
    Except String (List Customer × Nat) :=
  match query with
  | Except.error e => Except.error e
  | Except.ok cs =>
      Except.ok (cs.map (segItemApply score now), cs.countP (segItemWrites score))

/-- One deletion loop of `cleanOldData` (jobs.config.js): `wixData.remove`
is awaited for each record in turn with no per-item try/catch, so the first
throwing remove aborts the loop.  Returns the records actually attempted and
either the count of deleted records or the propagated error; records after
the failing one are never attempted. -/
def deleteLoopRun (remove : Nat → Except String Unit) :
    List Nat → List Nat × Except String Nat
  | [] => ([], Except.ok 0)
  | r :: rest =>
    match remove r with
    | Except.error e => ([r], Except.error e)
    | Except.ok _ =>
      match deleteLoopRun remove rest with
      | (att, Except.error e) => (r :: att, Except.error e)
      | (att, Except.ok n) => (r :: att, Except.ok (n + 1))

/-- The `cleanOldData` job boundary: the three deletion loops (browsing
history, interactions, recovered carts) run in sequence, records identified
by numeric ids; an error from any loop propagates to the outer catch, which
rethrows, so the remaining work of the pass is abandoned. -/
def cleanOldDataJob (remove : Nat → Except String Unit)
    (browsing interactions carts : List Nat) : Except String (Nat × Nat × Nat) :=
  match (deleteLoopRun remove browsing).2 with
  | Except.error e => Except.error e
  | Except.ok n1 =>
    match (deleteLoopRun remove interactions).2 with
    | Except.error e => Except.error e
    | Except.ok n2 =>
      match (deleteLoopRun remove carts).2 with
      | Except.error e => Except.error e
      | Except.ok n3 => Except.ok (n1, n2, n3)

/-- The daily report record, reduced to its numeric fields (the source also
stores formatted strings and timestamps, immaterial to the job contract). -/
structure DailyReport where
  orders : Nat
  revenue : Int
  previousDayOrders : Nat
  previousDayRevenue : Int
deriving DecidableEq

/-- The `generateDailySalesReport` job boundary: two order queries (orders
carried as their totals, the `order.total || 0` defaulting applied upstream)
feed a report object; the job has no per-item loop, and a failure of either
query is rethrown by the outer catch. -/
def generateDailySalesReportJob (today previous : Except String (List Int)) :
    Except String DailyReport :=
  match today with
  | Except.error e => Except.error e
  | Except.ok t =>
    match previous with
    | Except.error e => Except.error e
    | Except.ok p =>
      Except.ok { orders := t.length
                  revenue := t.sum
                  previousDayOrders := p.length
                  previousDayRevenue := p.sum }

/-- A JSON value as carried by the webhook request body.  A field absent from
an object is read as JavaScript `undefined`; both `undefined` and `null` are
falsy, so `null` stands for both here. -/
inductive Json where
  | null
  | bool (b : Bool)
  | num (n : Int)
  | str (s : String)
  | arr (xs : List Json)
  | obj (fields : List (String × Json))

/-- JavaScript truthiness of a JSON value: `null`/`undefined`, `false`, `0`
and the empty string are falsy; every array and object is truthy. -/
def Json.truthy : Json → Bool
  | Json.null => false
  | Json.bool b => b
  | Json.num n => n != 0
  | Json.str s => s != ""
  | Json.arr _ => true
  | Json.obj _ => true

/-- Property access `body.key`: the field value when present, otherwise
`undefined` (modelled as `Json.null`). -/
def Json.getField : Json → String → Json
  | Json.obj fields, k => (fields.lookup k).getD Json.null
  | _, _ => Json.null

/-- Whether an object literally carries the field, regardless of its value
(distinguishes a present-but-falsy field from a missing one). -/
def Json.hasField : Json → String → Bool
  | Json.obj fields, k => (fields.lookup k).isSome
  | _, _ => false

/-- The record handed to `trackAbandonedCart` by the webhook.  Modelled from
the spec: `trackAbandonedCart` (missing backend module `salesBot.jsw`)
creates or updates the `AbandonedCart` record from exactly these values
(spec section 6). -/
structure TrackedCartRequest where
  customerId : Json
  cartItems : Json
  cartTotal : Json

/-- The webhook responses the endpoint can produce. -/
inductive HttpResponse where
  | ok
  | badRequest (error : String)
deriving DecidableEq

/-- Validation error text of the webhook (http-functions.js). -/
def missingFieldsError : String := "Missing required fields: customerId, cartItems"

/-- The `post_cartAbandoned` webhook (http-functions.js): rejects when
`body.customerId` or `body.cartItems` is falsy, otherwise forwards
`(customerId, cartItems, cartTotal || 0)` to `trackAbandonedCart`.  The
second component is the tracked request, `none` when rejected. -/
def post_cartAbandoned (body : Json) : HttpResponse × Option TrackedCartRequest :=
  if !(body.getField "customerId").truthy || !(body.getField "cartItems").truthy then
    (HttpResponse.badRequest missingFieldsError, none)
  else
    (HttpResponse.ok,
     some { customerId := body.getField "customerId"
            cartItems := body.getField "cartItems"
            cartTotal := if (body.getField "cartTotal").truthy
                         then body.getField "cartTotal" else Json.num 0 })

/-- One chat message of the widget log: sender and text (the source also
stores an id, a timestamp, a type tag and attached data, which the claims do
not need). -/
structure ChatMessage where
  sender : String
  text : String
deriving DecidableEq

/-- The `ChatBotState` class of chatWidget.js: open flag, message log,
customer id, session id.  The module creates exactly one instance
(`let chatState = new ChatBotState()`) shared by every caller in the
process. -/
structure ChatBotState where
  isOpen : Bool
  messages : List ChatMessage
  customerId : Option String
  sessionId : Option String
deriving DecidableEq

/-- The single module-level state as constructed by `new ChatBotState()`. -/
def initialChatState : ChatBotState :=
  { isOpen := false, messages := [], customerId := none, sessionId := none }

/-- The configured bot greeting (BOT_CONFIG.greeting; text abbreviated, the
source string also carries emoji). -/
def botGreeting : String := "Welcome to Don Churro!"

/-- `ChatBotState.addMessage`: appends a message to the shared log. -/
def addMessage (sender text : String) (st : ChatBotState) : ChatBotState :=
  { st with messages := st.messages ++ [{ sender := sender, text := text }] }

/-- `initializeChatBot` acting on the module-level `chatState`: stores the
session id, sets `customerId` to the member id or `guest_` plus the session
id, and appends the greeting to the (shared) message log. -/
def initializeChatBot (sessionId : String) (memberId : Option String)
    (st : ChatBotState) : ChatBotState :=
  let cid := match memberId with
             | some m => m
             | none => "guest_" ++ sessionId
  addMessage "bot" botGreeting
    { st with sessionId := some sessionId, customerId := some cid }

/-- JavaScript regex word character (`\w`): ASCII letter, digit or
underscore. -/
def isWordChar (c : Char) : Bool :=
  (decide (97 ≤ c.toNat) && decide (c.toNat ≤ 122)) ||
  (decide (65 ≤ c.toNat) && decide (c.toNat ≤ 90)) ||
  (decide (48 ≤ c.toNat) && decide (c.toNat ≤ 57)) ||
  (c == '_')

/-- Whether the character at index `i` is a word character; out of range
counts as a non-word position, as at the ends of a string. -/
def wordCharAt (s : List Char) (i : Nat) : Bool := isWordChar (s.getD i ' ')

/-- Whether the literal `p` occurs in `s` starting at index `i`. -/
def patAt (s p : List Char) (i : Nat) : Bool := ((s.drop i).take p.length) == p

/-- Occurrence of `p` at `i` with a word boundary (`\b`) on both sides. -/
def wordOccursAt (s p : List Char) (i : Nat) : Bool :=
  patAt s p i && ((i == 0) || !wordCharAt s (i - 1)) && !wordCharAt s (i + p.length)

/-- Occurrence of `p` at `i` with a word boundary on the left only. -/
def leftBoundAt (s p : List Char) (i : Nat) : Bool :=
  patAt s p i && ((i == 0) || !wordCharAt s (i - 1))

/-- Existence of an index in `s` (including the end position) satisfying
`f`. -/
def anyPos (s : List Char) (f : Nat → Bool) : Bool :=
  (List.range (s.length + 1)).any f

/-- Matcher for the `\b(alt|...|alt)\b` intent patterns of chatWidget.js. -/
def hasWordAlt (alts : List String) (s : List Char) : Bool :=
  alts.any (fun a => anyPos s (fun i => wordOccursAt s a.data i))

/-- ASCII lowercasing of one character, as `String.prototype.toLowerCase`
acts on the ASCII pattern alphabet. -/
def lowerChar (c : Char) : Char :=
  if decide (65 ≤ c.toNat) && decide (c.toNat ≤ 90) then Char.ofNat (c.toNat + 32) else c

/-- The `input.toLowerCase()` step of `processUserInput`, as a character
list. -/
def normalize (s : String) : List Char := s.data.map lowerChar

/-- INTENT_PATTERNS.greeting: `^(hi|hello|hey|hola|buenos dias|good
morning|good afternoon)` -- an anchored prefix, with no word boundary. -/
def greetingMatch (s : List Char) : Bool :=
  (["hi", "hello", "hey", "hola", "buenos dias", "good morning",
    "good afternoon"] : List String).any (fun a => (s.take a.data.length) == a.data)

/-- INTENT_PATTERNS.productSearch: `\b(looking for|find|search|want|need|show
me)\b.*\b(product|item|churro|food|menu)`: a bounded first-group occurrence,
then (after a gap `.` cannot cross a newline) a left-bounded second-group
occurrence. -/
def productSearchMatch (s : List Char) : Bool :=
  anyPos s (fun i =>
    (["looking for", "find", "search", "want", "need", "show me"] : List String).any
      (fun a =>
        wordOccursAt s a.data i &&
        anyPos s (fun j =>
          decide (i + a.data.length ≤ j) &&
          (((s.drop (i + a.data.length)).take (j - (i + a.data.length))).all
            (fun c => c != Char.ofNat 10)) &&
          (["product", "item", "churro", "food", "menu"] : List String).any
            (fun b => leftBoundAt s b.data j))))

/-- INTENT_PATTERNS.recommendations. -/
def recommendationsMatch : List Char → Bool :=
  hasWordAlt ["recommend", "suggest", "best", "popular", "trending", "top"]

/-- INTENT_PATTERNS.discount. -/
def discountMatch : List Char → Bool :=
  hasWordAlt ["discount", "coupon", "promo", "offer", "deal", "sale", "code"]

/-- INTENT_PATTERNS.help. -/
def helpMatch : List Char → Bool :=
  hasWordAlt ["help", "support", "question", "problem", "issue"]

/-- INTENT_PATTERNS.cart. -/
def cartMatch : List Char → Bool :=
  hasWordAlt ["cart", "basket", "checkout", "buy", "purchase", "order"]

/-- INTENT_PATTERNS.price; declared by the source but never consulted by the
`processUserInput` cascade. -/
def priceMatch : List Char → Bool :=
  hasWordAlt ["price", "cost", "how much", "expensive", "cheap"]

/-- INTENT_PATTERNS.shipping. -/
def shippingMatch : List Char → Bool :=
  hasWordAlt ["ship", "deliver", "shipping", "delivery", "when", "arrive"]

/-- INTENT_PATTERNS.hours. -/
def hoursMatch : List Char → Bool :=
  hasWordAlt ["hour", "open", "close", "time", "schedule"]

/-- INTENT_PATTERNS.location. -/
def locationMatch : List Char → Bool :=
  hasWordAlt ["location", "address", "where", "find you", "store"]

/-- INTENT_PATTERNS.thanks. -/
def thanksMatch : List Char → Bool :=
  hasWordAlt ["thank", "thanks", "gracias", "appreciate"]

/-- INTENT_PATTERNS.bye. -/
def byeMatch : List Char → Bool :=
  hasWordAlt ["bye", "goodbye", "adios", "see you", "later"]

/-- The response classes produced by the `processUserInput` cascade. -/
inductive Intent where
  | greeting
  | recommendation
  | discount
  | cart
  | shipping
  | hours
  | location
  | thanks
  | bye
  | help
  | fallback
deriving DecidableEq

/-- The classification cascade of `processUserInput` (chatWidget.js): the
input is lowercased, then tested against greeting, recommendations or
product-search, discount, cart, shipping, hours, location, thanks, bye and
help in that order; the first hit decides, and unmatched input falls back. -/
def classifyIntent (input : String) : Intent :=
  let s := normalize input
  if greetingMatch s then Intent.greeting
  else if recommendationsMatch s || productSearchMatch s then Intent.recommendation
  else if discountMatch s then Intent.discount
  else if cartMatch s then Intent.cart
  else if shippingMatch s then Intent.shipping
  else if hoursMatch s then Intent.hours
  else if locationMatch s then Intent.location
  else if thanksMatch s then Intent.thanks
  else if byeMatch s then Intent.bye
  else if helpMatch s then Intent.help
  else Intent.fallback

/-- First-match-wins evaluation of an ordered (predicate, intent) table. -/
def firstMatch : List ((List Char → Bool) × Intent) → List Char → Intent
  | [], _ => Intent.fallback
  | (p, i) :: rest, s => if p s then i else firstMatch rest s

/-- The priority order of the cascade as an explicit table. -/
def intentPriorityTable : List ((List Char → Bool) × Intent) :=
  [(greetingMatch, Intent.greeting),
   (fun s => recommendationsMatch s || productSearchMatch s, Intent.recommendation),
   (discountMatch, Intent.discount),
   (cartMatch, Intent.cart),
   (shippingMatch, Intent.shipping),
   (hoursMatch, Intent.hours),
   (locationMatch, Intent.location),
   (thanksMatch, Intent.thanks),
   (byeMatch, Intent.bye),
   (helpMatch, Intent.help)]

/-- The `{ success, recommendations }` object returned by the recommendation
engine calls; products are kept by name. -/
structure RecResult where
  success : Bool
  recommendations : List String
deriving DecidableEq

/-- A chat reply: plain text, or a text plus attached product list. -/
inductive ChatReply where
  | text (t : String)
  | products (t : String) (data : List String)
deriving DecidableEq

/-- Header text of a successful product reply (emoji omitted). -/
def recommendationHeader : String := "Here are some products you might love!"

/-- The canned menu fallback reply of `handleProductRecommendation`. -/
def menuFallback : String := "Check out our full menu for all our delicious options! [View Menu](/menu)"

/-- Prefix test as used by `customerId.startsWith` in the source. -/
def strStartsWith (s p : String) : Bool := (s.data.take p.data.length) == p.data

/-- How `handleProductRecommendation` turns an engine call outcome into a
reply: a successful, non-empty result becomes a product reply; an
unsuccessful or empty result, or a thrown call, becomes the canned menu
text. -/
def renderRecommendation : Except Unit RecResult → ChatReply
  | Except.ok r =>
      if r.success && decide (0 < r.recommendations.length) then
        ChatReply.products recommendationHeader r.recommendations
      else ChatReply.text menuFallback
  | Except.error _ => ChatReply.text menuFallback

/-- `handleProductRecommendation` (chatWidget.js): a known, non-guest
customer id requests personalized recommendations with limit 3, anything
else requests trending with limit 3; the engines are passed in as the
functions the missing backend module exports. -/
def handleProductRecommendation (customerId : Option String)
    (personalized : String → Nat → Except Unit RecResult)
    (trending : Nat → Except Unit RecResult) : ChatReply :=
  match customerId with
  | some c =>
      if strStartsWith c "guest_" then renderRecommendation (trending 3)
      else renderRecommendation (personalized c 3)
  | none => renderRecommendation (trending 3)

/-- C1: the first-reminder batch pass selects exactly the carts whose
`abandonedAt` lies in the closed window between 1 and 24 hours in the past
with `emailSent = false` and `recovered = false` (within the documented page
of 100); a send leaves such a cart with `emailSent = true` and
`reminderCount = 1`, and a second pass run immediately afterwards selects no
cart at all. -/
theorem first_reminder_pass_correct (now : Int) (send : AbandonedCart → SendOutcome)
    (carts : List AbandonedCart)
    (hinv : ∀ c ∈ carts, 1 ≤ c.reminderCount → c.emailSent = true)
    (hpage : (carts.filter (firstReminderEligible now)).length ≤ 100) :
    (∀ c, c ∈ selectFirstReminder now carts ↔
        (c ∈ carts ∧ firstReminderEligible now c = true))
    ∧ (∀ c ∈ carts, firstReminderEligible now c = true →
        (sendCartRecoveryEmail now c).emailSent = true ∧
        (sendCartRecoveryEmail now c).reminderCount = 1)
    ∧ selectFirstReminder now (runFirstReminderPass now send carts).1 = [] := by
  have htake : selectFirstReminder now carts = carts.filter (firstReminderEligible now) := by
    unfold selectFirstReminder
    exact List.take_of_length_le hpage
  refine ⟨?_, ?_, ?_⟩
  · intro c
    rw [htake, List.mem_filter]
  · intro c hc helig
    refine ⟨rfl, ?_⟩
    have hmail : c.emailSent = false := by
      simp [firstReminderEligible, Bool.and_eq_true] at helig
      exact helig.1.2
    have hcount : c.reminderCount = 0 := by
      by_contra hne
      have h1 := hinv c hc (by omega)
      rw [h1] at hmail
      simp at hmail
    simp [sendCartRecoveryEmail, hcount]
  · have hchar : (runFirstReminderPass now send carts).1 =
        carts.map (fun c =>
          if firstReminderEligible now c then sendCartRecoveryEmail now c else c) := by
      show carts.map _ = _
      apply List.map_congr_left
      intro c hc
      by_cases he : firstReminderEligible now c = true
      · have hmem : c ∈ selectFirstReminder now carts := by
          rw [htake, List.mem_filter]
          exact ⟨hc, he⟩
        simp [hmem, he]
      · have hmem : c ∉ selectFirstReminder now carts := by
          rw [htake, List.mem_filter]
          tauto
        simp [hmem, he]
    rw [hchar]
    unfold selectFirstReminder
    have hnil : (carts.map (fun c =>
        if firstReminderEligible now c then sendCartRecoveryEmail now c else c)).filter
          (firstReminderEligible now) = [] := by
      rw [List.filter_eq_nil_iff]
      intro a ha
      rw [List.mem_map] at ha
      obtain ⟨c, hc, rfl⟩ := ha
      by_cases he : firstReminderEligible now c = true
      · rw [if_pos he]
        simp [firstReminderEligible, sendCartRecoveryEmail]
      · rw [if_neg he]
        exact he
    rw [hnil]
    rfl

/-- Witness for C1 at a concrete store: one cart abandoned two hours before
`now`, never emailed; after the pass an immediate second pass selects
nothing. -/
theorem first_reminder_pass_correct_witness :
    selectFirstReminder (25 * hourMs)
      (runFirstReminderPass (25 * hourMs) (fun _ => SendOutcome.success)
        [initialCart 1 "alice" 30 2 (23 * hourMs)]).1 = [] :=
  (first_reminder_pass_correct (25 * hourMs) (fun _ => SendOutcome.success)
      [initialCart 1 "alice" 30 2 (23 * hourMs)]
      (by decide) (by decide)).2.2

/-- C2: a recovered cart is never sent a reminder by any pass (first, second
or bulk); any event moves `reminderCount` up by at most one; and on every
reachable cart record `reminderCount` never exceeds 2. -/
theorem recovered_and_reminder_invariants :
    (∀ (e : CartEvent) (c : AbandonedCart), c.recovered = true →
        sendsReminder e c = false)
    ∧ (∀ (e : CartEvent) (c : AbandonedCart),
        c.reminderCount ≤ (cartStep e c).reminderCount ∧
        (cartStep e c).reminderCount ≤ c.reminderCount + 1)
    ∧ (∀ c : AbandonedCart, ReachableCart c → c.reminderCount ≤ 2) := by
  refine ⟨?_, ?_, ?_⟩
  · intro e c hrec
    rcases e with now | now | ⟨now, hrs⟩ | _
    · simp [sendsReminder, firstReminderEligible, hrec]
    · simp [sendsReminder, secondReminderEligible, hrec]
    · simp [sendsReminder, bulkRecoveryEligible, hrec]
    · rfl
  · intro e c
    rcases e with now | now | ⟨now, hrs⟩ | _
    · by_cases he : firstReminderEligible now c = true <;>
        simp [cartStep, he, sendCartRecoveryEmail]
    · by_cases he : secondReminderEligible now c = true <;>
        simp [cartStep, he, sendCartRecoveryEmail]
    · by_cases he : bulkRecoveryEligible now hrs c = true <;>
        simp [cartStep, he, sendCartRecoveryEmail]
    · simp [cartStep]
  · intro c h
    exact (reachable_inv c h).1

/-- Witness for C2: a concrete recovered cart draws no reminder from the
first pass, and a concrete freshly created cart is reachable with counter
within bound. -/
theorem recovered_and_reminder_invariants_witness :
    sendsReminder (CartEvent.firstPass 0)
      { initialCart 1 "a" 5 1 0 with recovered := true } = false ∧
    (initialCart 1 "a" 5 1 0).reminderCount ≤ 2 :=
  ⟨recovered_and_reminder_invariants.1 (CartEvent.firstPass 0)
      { initialCart 1 "a" 5 1 0 with recovered := true } rfl,
   recovered_and_reminder_invariants.2.2 (initialCart 1 "a" 5 1 0)
      (ReachableCart.init 1 "a" 5 1 0)⟩

/-- C3: a code validates as valid iff `isActive`, `now < expiresAt`,
`usedCount < usageLimit` and `orderAmount ≥ minOrderAmount`; each failing
condition is reported as its own reason; consumption never pushes
`usedCount` past `usageLimit`; and the `SAVE10` scenario behaves as
specified (15 fails `below_minimum`, 25 succeeds and sets `usedCount` to 1,
a second 25 fails `limit_reached`). -/
theorem validateCode_spec :
    (∀ (now : Int) (d : DiscountCode) (amt : Int),
        validateCode now d amt = ValidateResult.valid ↔
          (d.isActive = true ∧ now < d.expiresAt ∧ d.usedCount < d.usageLimit ∧
           d.minOrderAmount ≤ amt))
    ∧ (∀ (now : Int) (d : DiscountCode) (amt : Int),
        validateCode now d amt = ValidateResult.inactive ↔ d.isActive = false)
    ∧ (∀ (now : Int) (d : DiscountCode) (amt : Int),
        validateCode now d amt = ValidateResult.expired ↔
          (d.isActive = true ∧ d.expiresAt ≤ now))
    ∧ (∀ (now : Int) (d : DiscountCode) (amt : Int),
        validateCode now d amt = ValidateResult.limit_reached ↔
          (d.isActive = true ∧ now < d.expiresAt ∧ d.usageLimit ≤ d.usedCount))
    ∧ (∀ (now : Int) (d : DiscountCode) (amt : Int),
        validateCode now d amt = ValidateResult.below_minimum ↔
          (d.isActive = true ∧ now < d.expiresAt ∧ d.usedCount < d.usageLimit ∧
           amt < d.minOrderAmount))
    ∧ (∀ (now : Int) (d : DiscountCode) (amt : Int), d.usedCount ≤ d.usageLimit →
        (validateAndConsume now d amt).2.usedCount ≤ d.usageLimit)
    ∧ (validateAndConsume 0 save10 15 = (ValidateResult.below_minimum, save10)
       ∧ (validateAndConsume 0 save10 25).1 = ValidateResult.valid
       ∧ (validateAndConsume 0 save10 25).2.usedCount = 1
       ∧ (validateAndConsume 0 (validateAndConsume 0 save10 25).2 25).1 =
           ValidateResult.limit_reached) := by
  have hval : ∀ (now : Int) (d : DiscountCode) (amt : Int),
      validateCode now d amt = ValidateResult.valid ↔
        (d.isActive = true ∧ now < d.expiresAt ∧ d.usedCount < d.usageLimit ∧
         d.minOrderAmount ≤ amt) := by
    intro now d amt
    unfold validateCode
    split_ifs with h1 h2 h3 h4 <;> simp_all <;> omega
  refine ⟨hval, ?_, ?_, ?_, ?_, ?_, by decide⟩
  · intro now d amt
    unfold validateCode
    split_ifs with h1 h2 h3 h4 <;> simp_all
  · intro now d amt
    unfold validateCode
    split_ifs with h1 h2 h3 h4 <;> simp_all <;> omega
  · intro now d amt
    unfold validateCode
    split_ifs with h1 h2 h3 h4 <;> simp_all <;> omega
  · intro now d amt
    unfold validateCode
    split_ifs with h1 h2 h3 h4 <;> simp_all <;> omega
  · intro now d amt hle
    unfold validateAndConsume
    rcases hv : validateCode now d amt
    case valid =>
      have := (hval now d amt).1 hv
      simp
      omega
    all_goals simpa using hle

/-- Witness for C3: consuming `SAVE10` at order amount 25 keeps `usedCount`
within its usage limit. -/
theorem validateCode_spec_witness :
    (validateAndConsume 0 save10 25).2.usedCount ≤ save10.usageLimit :=
  validateCode_spec.2.2.2.2.2.1 0 save10 25 (by decide)

/-- Counting helper: the items satisfying a Boolean predicate and those
failing it partition a list. -/
theorem countP_not_add {α : Type} (p : α → Bool) (l : List α) :
    l.countP p + l.countP (fun a => !(p a)) = l.length := by
  induction l with
  | nil => rfl
  | cons x xs ih =>
    by_cases h : p x = true <;> simp [List.countP_cons, h] <;> omega

/-- C4 counterexample: both reminder jobs rethrow a top-level store failure
(`throw error` in their outer `catch`), so an error does escape the job
boundary, contrary to the claim that the batch entry points never throw past
it. -/
theorem job_boundary_throws_counterexample :
    processAbandonedCartsJob 0 (Except.error "store unavailable")
      (fun _ => SendOutcome.success) = Except.error "store unavailable"
    ∧ sendSecondReminderJob 0 (Except.error "store unavailable")
      (fun _ => SendOutcome.success) = Except.error "store unavailable" :=
  ⟨rfl, rfl⟩

/-- C4 amended: per-item error isolation holds for the two reminder jobs
and the segmentation job, whose loops carry a per-item try/catch (once the
top-level query succeeds each returns its summary whatever the per-item
outcomes, with `successful + failed = processed` for the first job and only
a `{ sent }` count for the second); it fails for `cleanOldData`, whose
deletion loops have no per-item catch, so the first failing remove aborts
the loop with the remaining records unattempted and the job rethrows;
`generateDailySalesReport` has no per-item loop; and every job rethrows a
failing top-level query past the boundary. -/
theorem batch_jobs_item_isolation :
    (∀ (now : Int) (send : AbandonedCart → SendOutcome) (carts : List AbandonedCart),
        processAbandonedCartsJob now (Except.ok carts) send =
          Except.ok (runFirstReminderPass now send carts))
    ∧ (∀ (now : Int) (send : AbandonedCart → SendOutcome) (carts : List AbandonedCart),
        (runFirstReminderPass now send carts).2.successful +
          (runFirstReminderPass now send carts).2.failed =
          (runFirstReminderPass now send carts).2.processed)
    ∧ (∀ (now : Int) (send : AbandonedCart → SendOutcome) (carts : List AbandonedCart),
        sendSecondReminderJob now (Except.ok carts) send =
          Except.ok (runSecondReminderPass now send carts))
    ∧ (∀ (now : Int) (send : AbandonedCart → SendOutcome) (carts : List AbandonedCart),
        (runSecondReminderPass now send carts).2.sent =
          (selectSecondReminder now carts).countP
            (fun c => !(send c == SendOutcome.thrown)))
    ∧ (∀ (score : String → Except Unit ScoreResult) (now : Int) (cs : List Customer),
        updateCustomerSegmentsJob (Except.ok cs) score now =
          Except.ok (cs.map (segItemApply score now), cs.countP (segItemWrites score)))
    ∧ (∀ (remove : Nat → Except String Unit) (pre post : List Nat) (bad : Nat)
        (e : String),
        (∀ r ∈ pre, remove r = Except.ok ()) → remove bad = Except.error e →
        deleteLoopRun remove (pre ++ bad :: post) = (pre ++ [bad], Except.error e))
    ∧ (∀ (remove : Nat → Except String Unit) (browsing interactions carts : List Nat)
        (e : String),
        (deleteLoopRun remove browsing).2 = Except.error e →
        cleanOldDataJob remove browsing interactions carts = Except.error e)
    ∧ (∀ (e : String) (previous : Except String (List Int)),
        generateDailySalesReportJob (Except.error e) previous = Except.error e)
    ∧ (∀ (now : Int) (e : String) (send : AbandonedCart → SendOutcome)
        (score : String → Except Unit ScoreResult),
        processAbandonedCartsJob now (Except.error e) send = Except.error e
        ∧ sendSecondReminderJob now (Except.error e) send = Except.error e
        ∧ updateCustomerSegmentsJob (Except.error e) score now = Except.error e) := by
  refine ⟨fun _ _ _ => rfl, ?_, fun _ _ _ => rfl, fun _ _ _ => rfl, fun _ _ _ => rfl,
    ?_, ?_, fun _ _ => rfl, fun _ _ _ _ => ⟨rfl, rfl, rfl⟩⟩
  · intro now send carts
    show (selectFirstReminder now carts).countP _ +
      (selectFirstReminder now carts).countP _ = (selectFirstReminder now carts).length
    exact countP_not_add (fun c => send c == SendOutcome.success)
      (selectFirstReminder now carts)
  · intro remove pre post bad e hok hbad
    induction pre with
    | nil => simp [deleteLoopRun, hbad]
    | cons r rs ih =>
      have hr : remove r = Except.ok () := hok r (by simp)
      have hrest := ih (fun x hx => hok x (by simp [hx]))
      simp [deleteLoopRun, hr, hrest]
  · intro remove browsing interactions carts e herr
    simp [cleanOldDataJob, herr]

/-- Witness for C4's amended claim at a concrete deletion loop: with record
2 failing to remove, the pass attempts only records 1 and 2, never record 3,
and ends in the propagated error. -/
theorem batch_jobs_item_isolation_witness :
    ((∀ r ∈ ([1] : List Nat),
        (fun x : Nat => if x == 2 then Except.error "remove failed" else Except.ok ()) r =
          Except.ok ())
     ∧ (fun x : Nat => if x == 2 then Except.error "remove failed" else Except.ok ()) 2 =
         Except.error "remove failed")
    ∧ deleteLoopRun
        (fun x : Nat => if x == 2 then Except.error "remove failed" else Except.ok ())
        ([1] ++ 2 :: [3]) = ([1] ++ [2], Except.error "remove failed") :=
  ⟨⟨fun r hr => by
      rw [List.mem_singleton] at hr
      subst hr
      rfl,
    rfl⟩,
   batch_jobs_item_isolation.2.2.2.2.2.1
     (fun x : Nat => if x == 2 then Except.error "remove failed" else Except.ok ())
     [1] [3] 2 "remove failed"
     (fun r hr => by
       rw [List.mem_singleton] at hr
       subst hr
       rfl)
     rfl⟩

/-- C5: the `processUserInput` cascade is literally first-match-wins over
the ordered table (greeting, recommendation or product-search, discount,
cart, shipping, hours, location, thanks, bye, help); any greeting-matching
input classifies as greeting no matter what else matches, and the scenario
input matches both the greeting and the discount patterns yet yields the
greeting class. -/
theorem intent_priority_order :
    (∀ input : String,
        classifyIntent input = firstMatch intentPriorityTable (normalize input))
    ∧ (∀ input : String, greetingMatch (normalize input) = true →
        classifyIntent input = Intent.greeting)
    ∧ greetingMatch (normalize "hi, do you have any discount codes") = true
    ∧ discountMatch (normalize "hi, do you have any discount codes") = true
    ∧ classifyIntent "hi, do you have any discount codes" = Intent.greeting := by
  refine ⟨fun _ => rfl, ?_, by decide, by decide, by decide⟩
  intro input h
  unfold classifyIntent
  simp [h]

/-- Witness for C5: the scenario input matches the greeting pattern, and the
general priority statement applied there returns the greeting class. -/
theorem intent_priority_order_witness :
    classifyIntent "hi, do you have any discount codes" = Intent.greeting :=
  intent_priority_order.2.1 "hi, do you have any discount codes" (by decide)

/-- C6: one segmentation pass preserves customer identity and hence the
recomputed score and segment; running the job a second time with the same
scoring data returns the same store contents and an `updated` count of
zero (an unchanged segment is never written back). -/
theorem segmentation_idempotent :
    (∀ (f : String → ScoreResult) (now : Int) (c : Customer),
        (segApply f now c).id = c.id ∧ f ((segApply f now c).id) = f c.id)
    ∧ (∀ (f : String → ScoreResult) (now : Int) (c : Customer),
        segWrite f c = false → segApply f now c = c)
    ∧ (∀ (f : String → ScoreResult) (now nowLater : Int) (cs : List Customer),
        updateCustomerSegments f nowLater (updateCustomerSegments f now cs).1 =
          ((updateCustomerSegments f now cs).1, 0)) := by
  have hid : ∀ (f : String → ScoreResult) (now : Int) (c : Customer),
      (segApply f now c).id = c.id := by
    intro f now c
    unfold segApply
    split <;> rfl
  have hskip : ∀ (f : String → ScoreResult) (now : Int) (c : Customer),
      segWrite f c = false → segApply f now c = c := by
    intro f now c hw
    unfold segApply
    rw [if_neg (by simp [hw])]
  have hnowrite : ∀ (f : String → ScoreResult) (now : Int) (c : Customer),
      segWrite f (segApply f now c) = false := by
    intro f now c
    by_cases hw : segWrite f c = true
    · unfold segApply
      rw [if_pos hw]
      unfold segWrite
      simp
    · have hw' : segWrite f c = false := by simpa using hw
      rw [hskip f now c hw']
      exact hw'
  refine ⟨fun f now c => ⟨hid f now c, by rw [hid]⟩, hskip, ?_⟩
  intro f now nowLater cs
  unfold updateCustomerSegments
  refine Prod.ext ?_ ?_
  · show (cs.map (segApply f now)).map (segApply f nowLater) = cs.map (segApply f now)
    rw [List.map_map]
    apply List.map_congr_left
    intro c _
    exact hskip f nowLater _ (hnowrite f now c)
  · show (cs.map (segApply f now)).countP (segWrite f) = 0
    rw [List.countP_eq_zero]
    intro a ha
    rw [List.mem_map] at ha
    obtain ⟨c, _, rfl⟩ := ha
    simp [hnowrite f now c]

/-- C7 counterexample: the widget keeps one module-level `chatState`;
initializing a second session over it overwrites the first session's
customer id and appends the second greeting to the same log, so the two
sessions' context and messages are not isolated. -/
theorem chat_state_shared_counterexample :
    (initializeChatBot "sessB" none
        (initializeChatBot "sessA" (some "alice") initialChatState)).customerId =
      some "guest_sessB"
    ∧ (initializeChatBot "sessB" none
        (initializeChatBot "sessA" (some "alice") initialChatState)).customerId ≠
      some "alice"
    ∧ (initializeChatBot "sessB" none
        (initializeChatBot "sessA" (some "alice") initialChatState)).messages =
      [{ sender := "bot", text := botGreeting },
       { sender := "bot", text := botGreeting }] := by
  refine ⟨rfl, ?_, rfl⟩
  decide

/-- C7 amended: the dispatcher state is a single shared mutable object, not
one per session: whatever the state was, a later `initializeChatBot` call
for another session overwrites `customerId` and `sessionId` and appends its
greeting to the common message log. -/
theorem chat_state_global_overwrite :
    ∀ (s1 s2 : String) (m1 m2 : Option String) (st : ChatBotState),
      (initializeChatBot s2 m2 (initializeChatBot s1 m1 st)).customerId =
        some (match m2 with | some m => m | none => "guest_" ++ s2)
      ∧ (initializeChatBot s2 m2 (initializeChatBot s1 m1 st)).sessionId = some s2
      ∧ (initializeChatBot s2 m2 (initializeChatBot s1 m1 st)).messages =
          st.messages ++ [{ sender := "bot", text := botGreeting }] ++
            [{ sender := "bot", text := botGreeting }] := by
  intro s1 s2 m1 m2 st
  refine ⟨?_, rfl, ?_⟩
  · cases m2 <;> rfl
  · simp [initializeChatBot, addMessage]

/-- C8 counterexample: the bulk-recovery endpoint has no upper bound on
elapsed time: no finite bound caps the age of the carts it selects, so its
eligibility is a single cutoff and not a closed interval. -/
theorem bulk_recovery_no_upper_bound :
    ¬ ∃ hi : Int, ∀ (now : Int) (c : AbandonedCart),
        bulkRecoveryEligible now 1 c = true → now - c.abandonedAt ≤ hi := by
  rintro ⟨hi, h⟩
  rcases le_or_lt 0 hi with hpos | hneg
  · have helig : bulkRecoveryEligible 0 1
        (initialCart 0 "x" 0 0 (-(hi + hourMs + 1))) = true := by
      simp only [bulkRecoveryEligible, initialCart, hourMs, Bool.and_eq_true,
        decide_eq_true_eq, beq_iff_eq]
      exact ⟨⟨by omega, trivial⟩, trivial⟩
    have hbound := h 0 _ helig
    simp only [initialCart, hourMs] at hbound
    omega
  · have helig : bulkRecoveryEligible 0 1
        (initialCart 0 "x" 0 0 (-hourMs)) = true := by
      simp only [bulkRecoveryEligible, initialCart, hourMs, Bool.and_eq_true,
        decide_eq_true_eq, beq_iff_eq]
      exact ⟨⟨by omega, trivial⟩, trivial⟩
    have hbound := h 0 _ helig
    simp only [initialCart, hourMs] at hbound
    omega

/-- C8 amended: the two scheduled reminder jobs select by closed two-sided
windows on elapsed time (1 to 24 hours since abandonment, respectively 24 to
48 hours since the last reminder), but the bulk-recovery endpoint selects by
the single cutoff `elapsed ≥ hoursOld` hours with no upper bound. -/
theorem eligibility_window_shapes :
    (∀ (now : Int) (c : AbandonedCart),
        firstReminderEligible now c = true ↔
          (hourMs ≤ now - c.abandonedAt ∧ now - c.abandonedAt ≤ 24 * hourMs ∧
           c.emailSent = false ∧ c.recovered = false))
    ∧ (∀ (now : Int) (c : AbandonedCart),
        secondReminderEligible now c = true ↔
          (24 * hourMs ≤ now - c.lastReminderAt ∧ now - c.lastReminderAt ≤ 48 * hourMs ∧
           c.recovered = false ∧ c.reminderCount = 1))
    ∧ (∀ (now : Int) (hoursOld : Int) (c : AbandonedCart),
        bulkRecoveryEligible now hoursOld c = true ↔
          (hoursOld * hourMs ≤ now - c.abandonedAt ∧
           c.emailSent = false ∧ c.recovered = false)) := by
  refine ⟨?_, ?_, ?_⟩
  · intro now c
    simp only [firstReminderEligible, Bool.and_eq_true, decide_eq_true_eq, beq_iff_eq]
    constructor
    · rintro ⟨⟨⟨h1, h2⟩, h3⟩, h4⟩
      exact ⟨by omega, by omega, h3, h4⟩
    · rintro ⟨h1, h2, h3, h4⟩
      exact ⟨⟨⟨by omega, by omega⟩, h3⟩, h4⟩
  · intro now c
    simp only [secondReminderEligible, Bool.and_eq_true, decide_eq_true_eq, beq_iff_eq]
    constructor
    · rintro ⟨⟨⟨h1, h2⟩, h3⟩, h4⟩
      exact ⟨by omega, by omega, h3, h4⟩
    · rintro ⟨h1, h2, h3, h4⟩
      exact ⟨⟨⟨by omega, by omega⟩, h3⟩, h4⟩
  · intro now hoursOld c
    simp only [bulkRecoveryEligible, Bool.and_eq_true, decide_eq_true_eq, beq_iff_eq]
    constructor
    · rintro ⟨⟨h1, h2⟩, h3⟩
      exact ⟨by omega, h2, h3⟩
    · rintro ⟨h1, h2, h3⟩
      exact ⟨⟨by omega, h2⟩, h3⟩

/-- C9: a recommendation-classified message is answered from the
personalized engine (limit 3) for a known non-guest customer and from the
trending engine (limit 3) otherwise, and any failed or empty engine result
is rendered as the canned menu reply instead of an error. -/
theorem recommendation_dispatch_fallback :
    (∀ (c : String) (personalized : String → Nat → Except Unit RecResult)
        (trending : Nat → Except Unit RecResult),
        strStartsWith c "guest_" = false →
        handleProductRecommendation (some c) personalized trending =
          renderRecommendation (personalized c 3))
    ∧ (∀ (c : String) (personalized : String → Nat → Except Unit RecResult)
        (trending : Nat → Except Unit RecResult),
        strStartsWith c "guest_" = true →
        handleProductRecommendation (some c) personalized trending =
          renderRecommendation (trending 3))
    ∧ (∀ (personalized : String → Nat → Except Unit RecResult)
        (trending : Nat → Except Unit RecResult),
        handleProductRecommendation none personalized trending =
          renderRecommendation (trending 3))
    ∧ (∀ r : RecResult, r.success = false ∨ r.recommendations = [] →
        renderRecommendation (Except.ok r) = ChatReply.text menuFallback)
    ∧ renderRecommendation (Except.error ()) = ChatReply.text menuFallback := by
  refine ⟨?_, ?_, fun _ _ => rfl, ?_, rfl⟩
  · intro c personalized trending hguest
    simp [handleProductRecommendation, hguest]
  · intro c personalized trending hguest
    simp [handleProductRecommendation, hguest]
  · intro r hr
    rcases hr with hr | hr <;> simp [renderRecommendation, hr]

/-- Witness for C9: a concrete non-guest id is routed to the personalized
engine, and a concrete empty engine result renders the canned menu reply. -/
theorem recommendation_dispatch_fallback_witness :
    (strStartsWith "alice" "guest_" = false
     ∧ handleProductRecommendation (some "alice")
        (fun _ _ => Except.ok { success := true, recommendations := ["churro"] })
        (fun _ => Except.error ()) =
        renderRecommendation (Except.ok { success := true, recommendations := ["churro"] }))
    ∧ renderRecommendation (Except.ok { success := false, recommendations := [] }) =
        ChatReply.text menuFallback :=
  ⟨⟨by decide,
    recommendation_dispatch_fallback.1 "alice"
      (fun _ _ => Except.ok { success := true, recommendations := ["churro"] })
      (fun _ => Except.error ()) (by decide)⟩,
   recommendation_dispatch_fallback.2.2.2.1
     { success := false, recommendations := [] } (Or.inl rfl)⟩

/-- C10 counterexample: a request whose `customerId` field is present but
falsy (the empty string) is rejected with the validation error, so rejection
is not limited to missing `customerId` or `cartItems`. -/
theorem webhook_falsy_customerId_rejected :
    (Json.obj [("customerId", Json.str ""), ("cartItems", Json.arr [Json.num 1])]).hasField
      "customerId" = true
    ∧ (post_cartAbandoned
        (Json.obj [("customerId", Json.str ""), ("cartItems", Json.arr [Json.num 1])])).1 =
      HttpResponse.badRequest missingFieldsError :=
  ⟨rfl, rfl⟩

/-- C10 amended: the webhook rejects exactly when `customerId` or
`cartItems` is falsy (absent, null, empty string, 0 or false); every other
request is forwarded to `trackAbandonedCart`, with `cartTotal` defaulted to
0 whenever it is falsy (in particular absent or 0). -/
theorem webhook_validation_truthiness :
    ∀ body : Json,
      ((post_cartAbandoned body).1 = HttpResponse.badRequest missingFieldsError ↔
        ((body.getField "customerId").truthy = false ∨
         (body.getField "cartItems").truthy = false))
      ∧ ((body.getField "cartTotal").truthy = false →
          (post_cartAbandoned body).2 = none ∨
          (post_cartAbandoned body).2 =
            some { customerId := body.getField "customerId"
                   cartItems := body.getField "cartItems"
                   cartTotal := Json.num 0 }) := by
  intro body
  constructor
  · unfold post_cartAbandoned
    by_cases h1 : (body.getField "customerId").truthy = true <;>
      by_cases h2 : (body.getField "cartItems").truthy = true <;>
        simp [h1, h2]
  · intro htot
    unfold post_cartAbandoned
    by_cases h1 : (body.getField "customerId").truthy = true <;>
      by_cases h2 : (body.getField "cartItems").truthy = true <;>
        simp [h1, h2, htot]

/-- Witness for C10 at a concrete accepted request without `cartTotal`: the
tracked record carries total 0. -/
theorem webhook_validation_truthiness_witness :
    ((Json.obj [("customerId", Json.str "alice"),
        ("cartItems", Json.arr [Json.num 1])]).getField "cartTotal").truthy = false
    ∧ ((post_cartAbandoned (Json.obj [("customerId", Json.str "alice"),
          ("cartItems", Json.arr [Json.num 1])])).2 = none ∨
       (post_cartAbandoned (Json.obj [("customerId", Json.str "alice"),
          ("cartItems", Json.arr [Json.num 1])])).2 =
         some { customerId := (Json.obj [("customerId", Json.str "alice"),
                  ("cartItems", Json.arr [Json.num 1])]).getField "customerId"
                cartItems := (Json.obj [("customerId", Json.str "alice"),
                  ("cartItems", Json.arr [Json.num 1])]).getField "cartItems"
                cartTotal := Json.num 0 }) :=
  ⟨rfl,
   (webhook_validation_truthiness (Json.obj [("customerId", Json.str "alice"),
      ("cartItems", Json.arr [Json.num 1])])).2 rfl⟩

end DonChurro
